/-
  Verification of `src/camera-watchdog.py` (camera-watchdog repository).

  The Python program is a cron-friendly watchdog: it probes an HTTP endpoint,
  restarts a service on every non-200 probe, retries with escalating waits,
  throttles repeated cron invocations after a failure, and persists its state
  with an atomic write-then-rename discipline.

  This file gives a shallow embedding of the program's logic:
  * the retry/backoff loop of `main` (lines 166-198),
  * the throttle policy `should_throttle` / `update_throttle_state`,
  * the prober `http_get_status`,
  * the atomic state-store write `write_json_atomic`,
  * `main`'s exit-code logic, and a fault-injecting variant for the
    exception-propagation claim,
  * a dynamically-typed (JSON-value level) model of `read_json` and
    `should_throttle` for the non-dict-throttle-file claim.

  Wall-clock timestamp fields (`checked_at`, `updated_at`) are outside the
  model: they are produced by `utc_now_iso()` from real time and no claim
  depends on their values.
-/
import Mathlib

namespace CameraWatchdog

/-! ## Configuration constants (source lines 26-41) -/

/-- `MAX_RETRIES = 5` (source line 29). -/
def MAX_RETRIES : Nat := 5

/-- `BASE_WAIT_SECONDS = 30` (source line 30). -/
def BASE_WAIT_SECONDS : Nat := 30

/-- `WAIT_INCREMENT_SECONDS = 30` (source line 31). -/
def WAIT_INCREMENT_SECONDS : Nat := 30

/-- `RUN_EVERY_N_AFTER_FAILURE = 10` (source line 41).
Python's `%` on a positive divisor agrees with Lean's `Int.emod`. -/
def RUN_EVERY_N_AFTER_FAILURE : Int := 10

/-! ## Health prober `http_get_status` (source lines 48-66)

The source distinguishes three ways the HTTP exchange can end:
`urlopen` returns a response object carrying a status, `urlopen` raises
`urllib.error.HTTPError` (the server answered with an error status code,
e.g. 404/500), or any other exception (connection refused, timeout, DNS,
protocol error before a status line).  The embedding abstracts the network
as the exchange outcome. -/

/-- The outcome of one HTTP exchange, as `urllib` surfaces it to
`http_get_status`: a returned response with its status code, an
`HTTPError` with its code and message, or any other exception
(no status line was received). -/
inductive HttpExchange where
  | response (status : Nat)
  | httpError (code : Nat) (msg : String)
  | netError (msg : String)
  deriving Repr, DecidableEq

/-- Whether a status line was received from the server in this exchange
(true for `response` and `httpError`, false for connection-level failure). -/
def statusLineReceived : HttpExchange → Bool
  | .response _ => true
  | .httpError _ _ => true
  | .netError _ => false

/-- `http_get_status` (source lines 48-66): returns
`(status_code, error_string)`; the status code is `none` iff the request
failed before a response.  Note that in the `HTTPError` branch (lines
59-62) the source returns the status code TOGETHER WITH an error string
`"HTTPError: ..."`; only the plain-response branch returns `none` as the
error. -/
def http_get_status : HttpExchange → Option Nat × Option String
  | .response status => (some status, none)
  | .httpError code msg => (some code, some ("HTTPError: " ++ msg))
  | .netError msg => (none, some ("RequestError: " ++ msg))

/-! ## The retry/backoff loop of `main` (source lines 166-198) -/

/-- The pair returned by `http_get_status` for one attempt, as the loop
consumes it: optional status code and optional error description. -/
structure ProbeResult where
  code : Option Nat
  err : Option String
  deriving Repr, DecidableEq

/-- The pair returned by `restart_service()` (source lines 69-78):
`ok = true` iff the restart command exited with status 0, `msg` its
diagnostic message. -/
structure RestartResult where
  ok : Bool
  msg : String
  deriving Repr, DecidableEq

/-- One entry of the `attempts` list built by the loop (source lines
174-190): the dict `{"try": i, "http_status": code, "http_error": err,
"checked_at": ...}`, to which the keys `restart_called`, `restart_ok`,
`restart_msg` are added when a restart is performed.  `restart_called`
records the presence of those keys; the wall-clock `checked_at` field is
outside the model. -/
structure AttemptRecord where
  tryIdx : Nat
  http_status : Option Nat
  http_error : Option String
  restart_called : Bool
  restart_ok : Option Bool
  restart_msg : Option String
  deriving Repr, DecidableEq

/-- The state of `main`'s local variables when the loop of lines 172-198
ends: `succeeded`, `attempts`, `restart_errors`, and additionally the
ordered list of durations passed to `time.sleep` (for the backoff claims). -/
structure LoopResult where
  succeeded : Bool
  attempts : List AttemptRecord
  restart_errors : List String
  sleeps : List Nat
  deriving Repr, DecidableEq

/-- The attempt record appended at source lines 174-181, before any
restart fields are added: attempt `i` with the probe's result. -/
def probeRec (probe : Nat → ProbeResult) (i : Nat) : AttemptRecord :=
  { tryIdx := i
    http_status := (probe i).code
    http_error := (probe i).err
    restart_called := false
    restart_ok := none
    restart_msg := none }

/-- The attempt record for a failed attempt `i` after the restart fields
are set (source lines 188-190). -/
def failRec (probe : Nat → ProbeResult) (restart : Nat → RestartResult)
    (i : Nat) : AttemptRecord :=
  { probeRec probe i with
      restart_called := true
      restart_ok := some (restart i).ok
      restart_msg := some (restart i).msg }

/-- The body of `for i in range(1, MAX_RETRIES + 1)` (source lines
172-198), written as structural recursion on the number of remaining
iterations.  The invariant at each call is `remaining = MAX_RETRIES + 1 - i`,
so the source's `i < MAX_RETRIES` guard for the sleep (line 195) is
`remaining ≠ 1`, i.e. the `remaining = matched + 1` branch recurses only
when `matched ≠ 0`.  `probe i` abstracts the call
`http_get_status(URL, TIMEOUT_SECONDS)` made in iteration `i`, and
`restart i` the call `restart_service()` in iteration `i`. -/
def retryLoopAux (probe : Nat → ProbeResult) (restart : Nat → RestartResult) :
    Nat → Nat → Nat → List AttemptRecord → List String → List Nat → LoopResult
  | 0, _, _, attempts, restart_errors, sleeps =>
      { succeeded := false, attempts := attempts
        restart_errors := restart_errors, sleeps := sleeps }
  | remaining + 1, i, wait, attempts, restart_errors, sleeps =>
      if (probe i).code = some 200 then
        { succeeded := true, attempts := attempts ++ [probeRec probe i]
          restart_errors := restart_errors, sleeps := sleeps }
      else
        let restart_errors' :=
          if (restart i).ok then restart_errors
          else restart_errors ++ [(restart i).msg]
        if remaining = 0 then
          { succeeded := false, attempts := attempts ++ [failRec probe restart i]
            restart_errors := restart_errors', sleeps := sleeps }
        else
          retryLoopAux probe restart remaining (i + 1)
            (wait + WAIT_INCREMENT_SECONDS)
            (attempts ++ [failRec probe restart i]) restart_errors'
            (sleeps ++ [wait])

/-- The whole retry loop (source lines 166-198): starts at attempt 1 with
`wait = BASE_WAIT_SECONDS`, empty `attempts` and `restart_errors`, and
runs at most `MAX_RETRIES` iterations. -/
def retryLoop (probe : Nat → ProbeResult) (restart : Nat → RestartResult) :
    LoopResult :=
  retryLoopAux probe restart MAX_RETRIES 1 BASE_WAIT_SECONDS [] [] []

/-! ## Throttle policy (source lines 98-126)

The source keeps the throttle state as a JSON dict with keys
`last_failed` and `counter`.  Here it is the typed record the spec's data
model calls `ThrottleState`; the dynamically-typed (raw JSON) behaviour of
`should_throttle` is modelled separately below for the non-dict claim.
The wall-clock `updated_at` field is outside the model. -/

/-- Persisted throttle state: `last_failed` (boolean) and `counter`
(integer, `Int` because the JSON file can hold any integer).  Python's
`%` and Lean's `Int` `%` (`Int.emod`) agree on the positive divisor 10. -/
structure ThrottleState where
  last_failed : Bool
  counter : Int
  deriving Repr, DecidableEq

/-- `should_throttle` (source lines 98-118), over the typed state:
returns `(skip_run, throttle_state)`.  If the previous execution did not
fail: never skip, reset the counter to 0 (lines 106-109).  Otherwise
increment the counter and skip unless `counter % RUN_EVERY_N_AFTER_FAILURE
== 0` (lines 111-118). -/
def should_throttle (state : ThrottleState) : Bool × ThrottleState :=
  if !state.last_failed then
    (false, { state with counter := 0 })
  else
    let counter := state.counter + 1
    let state' := { state with counter := counter }
    if counter % RUN_EVERY_N_AFTER_FAILURE ≠ 0 then
      (true, state')
    else
      (false, state')

/-- `update_throttle_state` (source lines 121-126): sets `last_failed`;
if the run did not fail, resets the counter to 0.  The `updated_at`
timestamp and the `write_json_atomic` persistence call carry no logical
state and are outside this record-level model. -/
def update_throttle_state (state : ThrottleState) (last_failed : Bool) :
    ThrottleState :=
  let state' := { state with last_failed := last_failed }
  if !last_failed then { state' with counter := 0 } else state'

/-! ## `main` (source lines 138-223) -/

/-- Outcome of the lock acquisition block (source lines 140-150):
the `flock` succeeds, raises `BlockingIOError` (another instance runs,
`main` returns 0 at line 147), or fails for any other reason (best-effort:
proceed without a lock, lines 148-150). -/
inductive LockResult where
  | acquired
  | contention
  | lockError
  deriving Repr, DecidableEq

/-- The exit status computed by `main` (source lines 138-223) as a
function of the lock outcome, the persisted throttle state, and the probe
and restart results of each attempt: 0 on lock contention (line 147),
0 on a throttled skip (line 164), and `0 if succeeded else 1` after the
retry loop (line 223).  Persistence writes do not affect the exit status
and are omitted here; the fault-injecting variant `mainE` below models
them. -/
def mainExit (lock : LockResult) (tstate : ThrottleState)
    (probe : Nat → ProbeResult) (restart : Nat → RestartResult) : Int :=
  match lock with
  | .contention => 0
  | _ =>
    let st := should_throttle tstate
    if st.1 then 0
    else if (retryLoop probe restart).succeeded then 0 else 1

/-- The effect of one full invocation of `main` on the persisted throttle
state (source lines 152-164 and 200-214): `should_throttle` mutates the
state it returns; a skipped run persists it with `last_failed=True`
(line 156); a run that proceeds persists it with
`last_failed = not succeeded` (line 214). -/
def invocationThrottle (tstate : ThrottleState)
    (probe : Nat → ProbeResult) (restart : Nat → RestartResult) :
    ThrottleState :=
  let st := should_throttle tstate
  if st.1 then update_throttle_state st.2 true
  else update_throttle_state st.2 (!(retryLoop probe restart).succeeded)

/-- Fault injection for the persistence writes `main` performs: whether
writing the status file (`write_status`) and the throttle file
(`update_throttle_state`) raises an `OSError`. -/
structure WriteFaults where
  statusFileFault : Bool
  throttleFileFault : Bool
  deriving Repr, DecidableEq

/-- A persistence write (`write_json_atomic`, source lines 89-95) seen as
a fallible action: it raises iff the injected fault says so. -/
def write_json_atomicE (fault : Bool) : Except String Unit :=
  if fault then Except.error "OSError: write failed" else Except.ok ()

/-- `main` (source lines 138-223) with its persistence writes made
explicit as fallible actions, in source order: on a throttled skip,
`update_throttle_state` (line 156) then `write_status` (lines 157-163);
on a run that proceeds, `write_status` (lines 201-213) then
`update_throttle_state` (line 214).  The source wraps none of this in a
`try`/`except`, so a raised exception propagates out of `main` — in this
model, `mainE` returns `Except.error` instead of an exit status. -/
def mainE (wf : WriteFaults) (lock : LockResult) (tstate : ThrottleState)
    (probe : Nat → ProbeResult) (restart : Nat → RestartResult) :
    Except String Int :=
  match lock with
  | .contention => Except.ok 0
  | _ =>
    let st := should_throttle tstate
    if st.1 then
      (write_json_atomicE wf.throttleFileFault).bind fun _ =>
      (write_json_atomicE wf.statusFileFault).bind fun _ =>
      Except.ok 0
    else
      (write_json_atomicE wf.statusFileFault).bind fun _ =>
      (write_json_atomicE wf.throttleFileFault).bind fun _ =>
      Except.ok (if (retryLoop probe restart).succeeded then 0 else 1)

/-! ## State store: `write_json_atomic` (source lines 89-95)

The filesystem is a map from paths to file contents (`none` = the path
does not exist).  `data` stands for the serialized JSON text produced by
`json.dump`.  The three externally visible steps of `write_json_atomic`
are: write the temporary sibling file, `fsync` it (a durability barrier —
it changes no content), and `os.replace` it onto the target (a single
atomic rename, per POSIX rename semantics). -/

/-- A filesystem: contents by path, `none` when the path does not exist. -/
def FS : Type := String → Option String

/-- The sibling temporary path `f"{path}.tmp"` (source line 90). -/
def tmpName (path : String) : String := path ++ ".tmp"

/-- Writing the temporary file (source lines 91-93): only the temporary
path's contents change.  A crash can leave `content` as any torn prefix
of the serialized data — the lemma below holds for every `content`. -/
def fsWriteTmp (path content : String) (fs : FS) : FS :=
  fun p => if p = tmpName path then some content else fs p

/-- `os.fsync` (source line 94): forces the temporary file durable;
changes no observable content. -/
def fsFsync (fs : FS) : FS := fs

/-- `os.replace(tmp_path, path)` (source line 95): one atomic rename —
the target takes the temporary file's contents and the temporary path
disappears, in a single step. -/
def fsReplace (path : String) (fs : FS) : FS :=
  fun p =>
    if p = path then fs (tmpName path)
    else if p = tmpName path then none
    else fs p

/-- `write_json_atomic` (source lines 89-95): temp write, fsync, atomic
replace. -/
def write_json_atomic (path data : String) (fs : FS) : FS :=
  fsReplace path (fsFsync (fsWriteTmp path data fs))

/-! ## Dynamically-typed model of `read_json` and `should_throttle`
(source lines 81-86 and 98-118)

`json.load` can produce any JSON value, not only an object; `read_json`
returns it unchanged.  The dict operations `state.get(...)`,
`state[...] = ...` and `int(...)` then raise on values of the wrong
shape; they are modelled in `Except`. -/

/-- A JSON value as `json.load` produces it.  JSON numbers are restricted
to integers in this model (the throttle file's `counter` is an integer). -/
inductive JValue where
  | null
  | bool (b : Bool)
  | num (n : Int)
  | str (s : String)
  | arr (elems : List JValue)
  | obj (fields : List (String × JValue))
  deriving Repr

/-- The outcome of `open` + `json.load` on a file: the open/read raised,
the parse raised, or a JSON value was parsed. -/
inductive ReadOutcome where
  | openError
  | parseError
  | parsed (v : JValue)

/-- `read_json` (source lines 81-86): any exception from opening or
parsing yields `{}`; a successfully parsed value is returned unchanged,
whatever its shape. -/
def read_json : ReadOutcome → JValue
  | .openError => .obj []
  | .parseError => .obj []
  | .parsed v => v

/-- First-match lookup in an object's field list (Python dict keys are
unique, so first match is the match). -/
def jLookup : List (String × JValue) → String → Option JValue
  | [], _ => none
  | (k, w) :: rest, key => if k = key then some w else jLookup rest key

/-- Python's `state.get(key, default)`: defined on dicts, raises
`AttributeError` on any other value (e.g. a list or a number has no
`.get`). -/
def jGet : JValue → String → JValue → Except String JValue
  | .obj fields, key, deflt => Except.ok ((jLookup fields key).getD deflt)
  | _, _, _ => Except.error "AttributeError: object has no attribute get"

/-- Setting a key in an object's field list: replace in place or append. -/
def jSetFields : List (String × JValue) → String → JValue →
    List (String × JValue)
  | [], key, v => [(key, v)]
  | (k, w) :: rest, key, v =>
      if k = key then (key, v) :: rest else (k, w) :: jSetFields rest key v

/-- Python's `state[key] = v`: defined on dicts, raises `TypeError`
otherwise. -/
def jSet : JValue → String → JValue → Except String JValue
  | .obj fields, key, v => Except.ok (.obj (jSetFields fields key v))
  | _, _, _ => Except.error "TypeError: object does not support item assignment"

/-- Python's `bool(...)` truthiness on a JSON value. -/
def jTruthy : JValue → Bool
  | .null => false
  | .bool b => b
  | .num n => n != 0
  | .str s => s != ""
  | .arr elems => !elems.isEmpty
  | .obj fields => !fields.isEmpty

/-- Python's `int(...)` on a JSON value: booleans map to 0/1, integers
pass through, numeric strings parse (modelled by `String.toInt?` on the
trimmed string), everything else raises. -/
def jToInt : JValue → Except String Int
  | .bool b => Except.ok (if b then 1 else 0)
  | .num n => Except.ok n
  | .str s =>
      match s.trim.toInt? with
      | some n => Except.ok n
      | none => Except.error "ValueError: invalid literal for int"
  | _ => Except.error "TypeError: int argument must be a number"

/-- `should_throttle` (source lines 98-118) at the raw JSON level,
starting from the outcome of reading `THROTTLE_FILE`: every dict
operation that can raise is explicit, so a non-dict throttle file makes
the function return an error exactly where Python raises. -/
def should_throttle_dyn (file : ReadOutcome) : Except String (Bool × JValue) :=
  let state := read_json file
  (jGet state "last_failed" (.bool false)).bind fun lfv =>
  if !(jTruthy lfv) then
    (jSet state "counter" (.num 0)).bind fun state' =>
    Except.ok (false, state')
  else
    (jGet state "counter" (.num 0)).bind fun cv =>
    (jToInt cv).bind fun c =>
    (jSet state "counter" (.num (c + 1))).bind fun state' =>
    if (c + 1) % RUN_EVERY_N_AFTER_FAILURE ≠ 0 then
      Except.ok (true, state')
    else
      Except.ok (false, state')

/-! ## Concrete inputs used by the witness theorems -/

/-- A probe that always fails at the connection level (no status code). -/
def probeFail : Nat → ProbeResult :=
  fun _ => ⟨none, some "RequestError: connection refused"⟩

/-- A restart that always succeeds. -/
def restartOk : Nat → RestartResult := fun _ => ⟨true, "ok"⟩

/-- A probe that fails at the connection level on attempt 1 and returns
200 from attempt 2 on. -/
def probeW : Nat → ProbeResult :=
  fun i => if i = 1 then ⟨none, some "RequestError: connection refused"⟩
           else ⟨some 200, none⟩

/-- A restart that always fails. -/
def restartFail : Nat → RestartResult :=
  fun _ => ⟨false, "systemctl failed rc=1: unit not found"⟩

/-! ## Helper lemmas about the retry loop -/

/-- The loop appends at most one attempt record per remaining iteration. -/
theorem retryLoopAux_attempts_length_le (probe : Nat → ProbeResult)
    (restart : Nat → RestartResult) (n : Nat) :
    ∀ (i wait : Nat) (A : List AttemptRecord) (E : List String)
      (S : List Nat),
      (retryLoopAux probe restart n i wait A E S).attempts.length ≤
        A.length + n := by
  induction n with
  | zero =>
    intro i wait A E S
    simp [retryLoopAux]
  | succ m ih =>
    intro i wait A E S
    by_cases h : (probe i).code = some 200
    · simp [retryLoopAux, h]
    · by_cases hm : m = 0
      · subst hm
        simp [retryLoopAux, h]
      · have hstep :
            retryLoopAux probe restart (m + 1) i wait A E S =
              retryLoopAux probe restart m (i + 1)
                (wait + WAIT_INCREMENT_SECONDS)
                (A ++ [failRec probe restart i])
                (if (restart i).ok then E else E ++ [(restart i).msg])
                (S ++ [wait]) := by
          simp [retryLoopAux, h, hm]
        rw [hstep]
        have := ih (i + 1) (wait + WAIT_INCREMENT_SECONDS)
          (A ++ [failRec probe restart i])
          (if (restart i).ok then E else E ++ [(restart i).msg])
          (S ++ [wait])
        simp at this
        omega

/-- Every record the loop appends has its restart fields set exactly when
its probe's status was not 200. -/
theorem retryLoopAux_restart_iff (probe : Nat → ProbeResult)
    (restart : Nat → RestartResult) (n : Nat) :
    ∀ (i wait : Nat) (A : List AttemptRecord) (E : List String)
      (S : List Nat),
      (∀ r ∈ A, (r.restart_called = true ↔ ¬ r.http_status = some 200)) →
      ∀ r ∈ (retryLoopAux probe restart n i wait A E S).attempts,
        (r.restart_called = true ↔ ¬ r.http_status = some 200) := by
  induction n with
  | zero =>
    intro i wait A E S hA r hr
    simp only [retryLoopAux] at hr
    exact hA r hr
  | succ m ih =>
    intro i wait A E S hA r hr
    by_cases h : (probe i).code = some 200
    · simp [retryLoopAux, h] at hr
      rcases hr with hr | hr
      · exact hA r hr
      · subst hr
        simp [probeRec, h]
    · by_cases hm : m = 0
      · subst hm
        simp [retryLoopAux, h] at hr
        rcases hr with hr | hr
        · exact hA r hr
        · subst hr
          simp [failRec, probeRec, h]
      · have hstep :
            retryLoopAux probe restart (m + 1) i wait A E S =
              retryLoopAux probe restart m (i + 1)
                (wait + WAIT_INCREMENT_SECONDS)
                (A ++ [failRec probe restart i])
                (if (restart i).ok then E else E ++ [(restart i).msg])
                (S ++ [wait]) := by
          simp [retryLoopAux, h, hm]
        rw [hstep] at hr
        refine ih (i + 1) (wait + WAIT_INCREMENT_SECONDS)
          (A ++ [failRec probe restart i]) _ (S ++ [wait]) ?_ r hr
        intro r' hr'
        simp only [List.mem_append, List.mem_singleton] at hr'
        rcases hr' with hr' | hr'
        · exact hA r' hr'
        · subst hr'
          simp [failRec, probeRec, h]

/-- If attempt `k ≤ MAX_RETRIES` is the first probe returning 200, the
loop succeeds with exactly the records of the `k - 1` failed attempts
followed by the success record, and `k - 1` waits. -/
theorem retryLoop_first_success (probe : Nat → ProbeResult)
    (restart : Nat → RestartResult) (k : Nat) (hk1 : 1 ≤ k)
    (hk5 : k ≤ MAX_RETRIES) (hk : (probe k).code = some 200)
    (hprev : ∀ j, 1 ≤ j → j < k → ¬ (probe j).code = some 200) :
    (retryLoop probe restart).succeeded = true ∧
    (retryLoop probe restart).attempts =
      (List.range' 1 (k - 1)).map (failRec probe restart) ++
        [probeRec probe k] ∧
    (retryLoop probe restart).sleeps.length = k - 1 := by
  simp only [MAX_RETRIES] at hk5
  interval_cases k
  · simp [retryLoop, retryLoopAux, MAX_RETRIES, BASE_WAIT_SECONDS,
      WAIT_INCREMENT_SECONDS, hk, List.range']
  · have h1 := hprev 1 (by norm_num) (by norm_num)
    simp [retryLoop, retryLoopAux, MAX_RETRIES, BASE_WAIT_SECONDS,
      WAIT_INCREMENT_SECONDS, hk, h1, List.range']
  · have h1 := hprev 1 (by norm_num) (by norm_num)
    have h2 := hprev 2 (by norm_num) (by norm_num)
    simp [retryLoop, retryLoopAux, MAX_RETRIES, BASE_WAIT_SECONDS,
      WAIT_INCREMENT_SECONDS, hk, h1, h2, List.range']
  · have h1 := hprev 1 (by norm_num) (by norm_num)
    have h2 := hprev 2 (by norm_num) (by norm_num)
    have h3 := hprev 3 (by norm_num) (by norm_num)
    simp [retryLoop, retryLoopAux, MAX_RETRIES, BASE_WAIT_SECONDS,
      WAIT_INCREMENT_SECONDS, hk, h1, h2, h3, List.range']
  · have h1 := hprev 1 (by norm_num) (by norm_num)
    have h2 := hprev 2 (by norm_num) (by norm_num)
    have h3 := hprev 3 (by norm_num) (by norm_num)
    have h4 := hprev 4 (by norm_num) (by norm_num)
    simp [retryLoop, retryLoopAux, MAX_RETRIES, BASE_WAIT_SECONDS,
      WAIT_INCREMENT_SECONDS, hk, h1, h2, h3, h4, List.range']

/-- If every probe of attempts 1..MAX_RETRIES fails, the run does not
succeed, uses all 5 attempts, and sleeps exactly 30, 60, 90, 120 seconds
(`BASE_WAIT_SECONDS + j * WAIT_INCREMENT_SECONDS` for `j = 0..3`), with
no wait after the final attempt. -/
theorem retryLoop_all_fail (probe : Nat → ProbeResult)
    (restart : Nat → RestartResult)
    (hfail : ∀ k, 1 ≤ k → k ≤ MAX_RETRIES → ¬ (probe k).code = some 200) :
    (retryLoop probe restart).succeeded = false ∧
    (retryLoop probe restart).attempts.length = MAX_RETRIES ∧
    (retryLoop probe restart).sleeps = [30, 60, 90, 120] ∧
    (retryLoop probe restart).sleeps =
      (List.range (MAX_RETRIES - 1)).map
        (fun j => BASE_WAIT_SECONDS + j * WAIT_INCREMENT_SECONDS) := by
  have h1 := hfail 1 (by norm_num) (by simp [MAX_RETRIES])
  have h2 := hfail 2 (by norm_num) (by simp [MAX_RETRIES])
  have h3 := hfail 3 (by norm_num) (by simp [MAX_RETRIES])
  have h4 := hfail 4 (by norm_num) (by simp [MAX_RETRIES])
  have h5 := hfail 5 (by norm_num) (by simp [MAX_RETRIES])
  refine ⟨?_, ?_, ?_, ?_⟩
  · simp [retryLoop, retryLoopAux, MAX_RETRIES, BASE_WAIT_SECONDS,
      WAIT_INCREMENT_SECONDS, h1, h2, h3, h4, h5]
  · simp [retryLoop, retryLoopAux, MAX_RETRIES, BASE_WAIT_SECONDS,
      WAIT_INCREMENT_SECONDS, h1, h2, h3, h4, h5]
  · simp [retryLoop, retryLoopAux, MAX_RETRIES, BASE_WAIT_SECONDS,
      WAIT_INCREMENT_SECONDS, h1, h2, h3, h4, h5]
  · have hs : (retryLoop probe restart).sleeps = [30, 60, 90, 120] := by
      simp [retryLoop, retryLoopAux, MAX_RETRIES, BASE_WAIT_SECONDS,
        WAIT_INCREMENT_SECONDS, h1, h2, h3, h4, h5]
    rw [hs]
    decide

/-- The loop's success flag is false exactly when no probe of attempts
1..MAX_RETRIES returned 200. -/
theorem retryLoop_succeeded_false_iff (probe : Nat → ProbeResult)
    (restart : Nat → RestartResult) :
    (retryLoop probe restart).succeeded = false ↔
      ∀ k, 1 ≤ k → k ≤ MAX_RETRIES → ¬ (probe k).code = some 200 := by
  constructor
  · intro hf
    by_cases h1 : (probe 1).code = some 200
    · have := (retryLoop_first_success probe restart 1 (by norm_num)
        (by simp [MAX_RETRIES]) h1 (by intro j hj1 hj2; omega)).1
      rw [this] at hf
      cases hf
    · by_cases h2 : (probe 2).code = some 200
      · have := (retryLoop_first_success probe restart 2 (by norm_num)
          (by simp [MAX_RETRIES]) h2
          (by intro j hj1 hj2
              have : j = 1 := by omega
              subst this
              exact h1)).1
        rw [this] at hf
        cases hf
      · by_cases h3 : (probe 3).code = some 200
        · have := (retryLoop_first_success probe restart 3 (by norm_num)
            (by simp [MAX_RETRIES]) h3
            (by intro j hj1 hj2
                interval_cases j
                · exact h1
                · exact h2)).1
          rw [this] at hf
          cases hf
        · by_cases h4 : (probe 4).code = some 200
          · have := (retryLoop_first_success probe restart 4 (by norm_num)
              (by simp [MAX_RETRIES]) h4
              (by intro j hj1 hj2
                  interval_cases j
                  · exact h1
                  · exact h2
                  · exact h3)).1
            rw [this] at hf
            cases hf
          · by_cases h5 : (probe 5).code = some 200
            · have := (retryLoop_first_success probe restart 5 (by norm_num)
                (by simp [MAX_RETRIES]) h5
                (by intro j hj1 hj2
                    interval_cases j
                    · exact h1
                    · exact h2
                    · exact h3
                    · exact h4)).1
              rw [this] at hf
              cases hf
            · intro k hk1 hk5
              simp only [MAX_RETRIES] at hk5
              interval_cases k
              · exact h1
              · exact h2
              · exact h3
              · exact h4
              · exact h5
  · intro hfail
    exact (retryLoop_all_fail probe restart hfail).1

/-! ## C1 -/

/-- C1: for every sequence of probe results, the retry loop in `main`
performs at most `MAX_RETRIES` (5) probes (one attempt record per probe),
and on the first probe that returns status code 200 it stops immediately:
the success flag is set, the attempt list closes with that attempt's
record — no restart fields on it and no further records — and the number
of waits performed is one fewer than the attempts used, so no wait occurs
for the successful or any later attempt. -/
theorem C1_loop_bounded_and_stops_on_first_success
    (probe : Nat → ProbeResult) (restart : Nat → RestartResult) :
    (retryLoop probe restart).attempts.length ≤ MAX_RETRIES ∧
    (∀ k, 1 ≤ k → k ≤ MAX_RETRIES → (probe k).code = some 200 →
      (∀ j, 1 ≤ j → j < k → ¬ (probe j).code = some 200) →
      (retryLoop probe restart).succeeded = true ∧
      (retryLoop probe restart).attempts =
        (List.range' 1 (k - 1)).map (failRec probe restart) ++
          [probeRec probe k] ∧
      (retryLoop probe restart).sleeps.length = k - 1) := by
  constructor
  · have := retryLoopAux_attempts_length_le probe restart MAX_RETRIES 1
      BASE_WAIT_SECONDS [] [] []
    simpa [retryLoop] using this
  · intro k hk1 hk5 hk hprev
    exact retryLoop_first_success probe restart k hk1 hk5 hk hprev

/-- Witness for C1: a probe that fails at the connection level on
attempt 1 and returns 200 on attempt 2, with a failing restart — the run
succeeds with exactly the two expected records and one wait. -/
theorem C1_witness :
    1 ≤ 2 ∧ 2 ≤ MAX_RETRIES ∧ (probeW 2).code = some 200 ∧
    (retryLoop probeW restartFail).succeeded = true ∧
    (retryLoop probeW restartFail).attempts =
      (List.range' 1 1).map (failRec probeW restartFail) ++
        [probeRec probeW 2] ∧
    (retryLoop probeW restartFail).sleeps.length = 1 := by
  have h := (C1_loop_bounded_and_stops_on_first_success probeW restartFail).2
    2 (by norm_num) (by simp [MAX_RETRIES]) (by simp [probeW])
    (by intro j hj1 hj2
        have : j = 1 := by omega
        subst this
        simp [probeW])
  exact ⟨by norm_num, by simp [MAX_RETRIES], by simp [probeW],
    h.1, h.2.1, h.2.2⟩

/-! ## C2 -/

/-- C2: in every run in which no probe returns 200, all 5 attempts are
used, the run does not succeed, and exactly 4 waits occur, in order
30, 60, 90, 120 seconds — i.e. `BASE_WAIT_SECONDS + (k-1) *
WAIT_INCREMENT_SECONDS` for wait number k — with no wait after the final
attempt. -/
theorem C2_failing_run_waits (probe : Nat → ProbeResult)
    (restart : Nat → RestartResult)
    (hfail : ∀ k, 1 ≤ k → k ≤ MAX_RETRIES → ¬ (probe k).code = some 200) :
    (retryLoop probe restart).succeeded = false ∧
    (retryLoop probe restart).attempts.length = MAX_RETRIES ∧
    (retryLoop probe restart).sleeps = [30, 60, 90, 120] ∧
    (retryLoop probe restart).sleeps =
      (List.range (MAX_RETRIES - 1)).map
        (fun j => BASE_WAIT_SECONDS + j * WAIT_INCREMENT_SECONDS) :=
  retryLoop_all_fail probe restart hfail

/-- Witness for C2: an always-connection-failing probe with an always
succeeding restart exercises the failing-run wait schedule. -/
theorem C2_witness :
    (∀ k, 1 ≤ k → k ≤ MAX_RETRIES → ¬ (probeFail k).code = some 200) ∧
    (retryLoop probeFail restartOk).succeeded = false ∧
    (retryLoop probeFail restartOk).attempts.length = MAX_RETRIES ∧
    (retryLoop probeFail restartOk).sleeps = [30, 60, 90, 120] := by
  have hf : ∀ k, 1 ≤ k → k ≤ MAX_RETRIES → ¬ (probeFail k).code = some 200 :=
    fun k _ _ => by simp [probeFail]
  have h := C2_failing_run_waits probeFail restartOk hf
  exact ⟨hf, h.1, h.2.1, h.2.2.1⟩

/-! ## C3 -/

/-- C3: in every run, every attempt record carries restart fields
(a restart was attempted) exactly when its probe's status was not 200 —
in particular a connection-level failure (`http_status = none`) still
triggers a restart, and a 200 probe never does. -/
theorem C3_restart_after_every_non_success (probe : Nat → ProbeResult)
    (restart : Nat → RestartResult) :
    ∀ r ∈ (retryLoop probe restart).attempts,
      (r.restart_called = true ↔ ¬ r.http_status = some 200) := by
  intro r hr
  exact retryLoopAux_restart_iff probe restart MAX_RETRIES 1
    BASE_WAIT_SECONDS [] [] [] (by simp) r hr

/-- Witness for C3: in the run whose first probe fails at the connection
level (no status code at all), the first record is in the attempt list,
had its restart attempted, and indeed has a non-200 (absent) status. -/
theorem C3_witness :
    failRec probeFail restartOk 1 ∈ (retryLoop probeFail restartOk).attempts ∧
    ((failRec probeFail restartOk 1).restart_called = true ↔
      ¬ (failRec probeFail restartOk 1).http_status = some 200) := by
  have hmem : failRec probeFail restartOk 1 ∈
      (retryLoop probeFail restartOk).attempts := by
    simp [retryLoop, retryLoopAux, MAX_RETRIES, BASE_WAIT_SECONDS,
      WAIT_INCREMENT_SECONDS, probeFail, restartOk]
  exact ⟨hmem,
    C3_restart_after_every_non_success probeFail restartOk _ hmem⟩

/-! ## Helper lemmas about the throttle policy -/

/-- `should_throttle` when the previous run did not fail: no skip, the
counter is reset to 0. -/
theorem should_throttle_not_failed (s : ThrottleState)
    (h : s.last_failed = false) :
    should_throttle s = (false, { s with counter := 0 }) := by
  simp [should_throttle, h]

/-- `should_throttle` when the previous run failed: the returned state
has the counter incremented by exactly 1 and `last_failed` unchanged. -/
theorem should_throttle_failed_snd (s : ThrottleState)
    (h : s.last_failed = true) :
    (should_throttle s).2 = { s with counter := s.counter + 1 } := by
  by_cases hm : (s.counter + 1) % RUN_EVERY_N_AFTER_FAILURE = 0 <;>
    simp [should_throttle, h, hm]

/-- `should_throttle` when the previous run failed: skip exactly when the
incremented counter is not divisible by `RUN_EVERY_N_AFTER_FAILURE`. -/
theorem should_throttle_failed_fst (s : ThrottleState)
    (h : s.last_failed = true) :
    ((should_throttle s).1 = true ↔
      ¬ (s.counter + 1) % RUN_EVERY_N_AFTER_FAILURE = 0) := by
  by_cases hm : (s.counter + 1) % RUN_EVERY_N_AFTER_FAILURE = 0 <;>
    simp [should_throttle, h, hm]

/-- A skip can only be signalled after a failed run. -/
theorem should_throttle_skip_imp_failed (s : ThrottleState)
    (h : (should_throttle s).1 = true) : s.last_failed = true := by
  by_contra hl
  have hl' : s.last_failed = false := by
    cases hlf : s.last_failed
    · rfl
    · exact absurd hlf hl
  rw [should_throttle_not_failed s hl'] at h
  cases h

/-! ## C4 -/

/-- C4: for every persisted `ThrottleState`, `should_throttle` never
signals a skip and resets the counter to 0 when `last_failed` is false;
when `last_failed` is true it increments the counter by exactly 1 and
signals a skip iff the incremented counter is not divisible by
`RUN_EVERY_N_AFTER_FAILURE` (10) — so the gate is passed exactly on the
counter values divisible by 10. -/
theorem C4_should_throttle_policy (s : ThrottleState) :
    (s.last_failed = false →
      should_throttle s = (false, { s with counter := 0 })) ∧
    (s.last_failed = true →
      (should_throttle s).2 = { s with counter := s.counter + 1 } ∧
      ((should_throttle s).1 = true ↔
        ¬ (s.counter + 1) % RUN_EVERY_N_AFTER_FAILURE = 0)) :=
  ⟨fun h => should_throttle_not_failed s h,
   fun h => ⟨should_throttle_failed_snd s h,
     should_throttle_failed_fst s h⟩⟩

/-- Witness for C4: a clean state never skips and is reset; a failed
state at counter 8 increments to 9 and skips; a failed state at counter 9
increments to 10 and proceeds past the gate. -/
theorem C4_witness :
    (⟨false, 7⟩ : ThrottleState).last_failed = false ∧
    should_throttle ⟨false, 7⟩ = (false, ⟨false, 0⟩) ∧
    (⟨true, 8⟩ : ThrottleState).last_failed = true ∧
    (should_throttle ⟨true, 8⟩).2 = ⟨true, 9⟩ ∧
    (should_throttle ⟨true, 8⟩).1 = true ∧
    (should_throttle ⟨true, 9⟩).1 = false := by
  have hf := (C4_should_throttle_policy ⟨false, 7⟩).1 rfl
  have h8 := (C4_should_throttle_policy ⟨true, 8⟩).2 rfl
  have h9 := (C4_should_throttle_policy ⟨true, 9⟩).2 rfl
  refine ⟨rfl, hf, rfl, h8.1, ?_, ?_⟩
  · rw [h8.2]
    decide
  · have h := h9.2
    rw [show ((9 : Int) + 1) % RUN_EVERY_N_AFTER_FAILURE = 0 from by decide]
      at h
    simp at h
    exact h

/-! ## C5 -/

/-- C5: across consecutive invocations, the persisted counter is reset
to 0 by an invocation whose run proceeds and succeeds (`last_failed`
becomes false); a throttled (skipped) invocation still increments the
counter by exactly 1 and re-persists `last_failed = true`; and whenever
`last_failed` stays true across an invocation, the counter increments by
exactly 1. -/
theorem C5_throttle_counter_across_invocations (s : ThrottleState)
    (probe : Nat → ProbeResult) (restart : Nat → RestartResult) :
    ((should_throttle s).1 = true →
      (invocationThrottle s probe restart).last_failed = true ∧
      (invocationThrottle s probe restart).counter = s.counter + 1) ∧
    ((should_throttle s).1 = false →
      (retryLoop probe restart).succeeded = true →
      (invocationThrottle s probe restart).last_failed = false ∧
      (invocationThrottle s probe restart).counter = 0) ∧
    (s.last_failed = true →
      (invocationThrottle s probe restart).last_failed = true →
      (invocationThrottle s probe restart).counter = s.counter + 1) := by
  refine ⟨?_, ?_, ?_⟩
  · intro hskip
    have hlf := should_throttle_skip_imp_failed s hskip
    have h2 := should_throttle_failed_snd s hlf
    simp [invocationThrottle, hskip, update_throttle_state, h2]
  · intro hns hsucc
    simp [invocationThrottle, hns, hsucc, update_throttle_state]
  · intro hlf hstays
    have h2 := should_throttle_failed_snd s hlf
    by_cases hskip : (should_throttle s).1 = true
    · simp [invocationThrottle, hskip, update_throttle_state, h2]
    · have hskip' : (should_throttle s).1 = false := by
        cases h : (should_throttle s).1
        · rfl
        · exact absurd h hskip
      by_cases hsucc : (retryLoop probe restart).succeeded = true
      · exfalso
        have : (invocationThrottle s probe restart).last_failed = false := by
          simp [invocationThrottle, hskip', hsucc, update_throttle_state]
        rw [this] at hstays
        cases hstays
      · have hsucc' : (retryLoop probe restart).succeeded = false := by
          cases h : (retryLoop probe restart).succeeded
          · rfl
          · exact absurd h hsucc
        simp [invocationThrottle, hskip', hsucc', update_throttle_state, h2]

/-- Witness for C5: a skipped invocation (failed state, counter 3)
increments to 4 and stays failed; an invocation that proceeds (failed
state, counter 9 → 10, gate passed) and succeeds resets the counter to 0
and clears `last_failed`. -/
theorem C5_witness :
    (should_throttle ⟨true, 3⟩).1 = true ∧
    (invocationThrottle ⟨true, 3⟩ probeFail restartOk).last_failed = true ∧
    (invocationThrottle ⟨true, 3⟩ probeFail restartOk).counter = 4 ∧
    (should_throttle ⟨true, 9⟩).1 = false ∧
    (retryLoop probeW restartFail).succeeded = true ∧
    (invocationThrottle ⟨true, 9⟩ probeW restartFail).last_failed = false ∧
    (invocationThrottle ⟨true, 9⟩ probeW restartFail).counter = 0 := by
  have hskip : (should_throttle ⟨true, 3⟩).1 = true := by decide
  have hns : (should_throttle ⟨true, 9⟩).1 = false := by decide
  have hsucc : (retryLoop probeW restartFail).succeeded = true := rfl
  have h1 := (C5_throttle_counter_across_invocations ⟨true, 3⟩ probeFail
    restartOk).1 hskip
  have h2 := (C5_throttle_counter_across_invocations ⟨true, 9⟩ probeW
    restartFail).2.1 hns hsucc
  exact ⟨hskip, h1.1, h1.2, hns, hsucc, h2.1, h2.2⟩

/-! ## C6 -/

/-- C6: the exit status of `main` is 0 on lock contention, 0 on a
throttled skip, and 0 when the retry loop succeeds; it is 1 exactly when
the lock was not contended, the run was not skipped, and the retry loop
was exhausted with no probe returning 200 (the fourth conjunct ties the
loop's failure flag to every probe failing). -/
theorem C6_exit_status (lock : LockResult) (s : ThrottleState)
    (probe : Nat → ProbeResult) (restart : Nat → RestartResult) :
    mainExit .contention s probe restart = 0 ∧
    (¬ lock = .contention → (should_throttle s).1 = true →
      mainExit lock s probe restart = 0) ∧
    (¬ lock = .contention → (should_throttle s).1 = false →
      (retryLoop probe restart).succeeded = true →
      mainExit lock s probe restart = 0) ∧
    ((retryLoop probe restart).succeeded = false ↔
      ∀ k, 1 ≤ k → k ≤ MAX_RETRIES → ¬ (probe k).code = some 200) ∧
    (mainExit lock s probe restart = 1 ↔
      (¬ lock = .contention ∧ (should_throttle s).1 = false ∧
        (retryLoop probe restart).succeeded = false)) := by
  refine ⟨by simp [mainExit], ?_, ?_, retryLoop_succeeded_false_iff probe
    restart, ?_⟩
  · intro hl hskip
    cases lock
    · simp [mainExit, hskip]
    · exact absurd rfl hl
    · simp [mainExit, hskip]
  · intro hl hskip hsucc
    cases lock
    · simp [mainExit, hskip, hsucc]
    · exact absurd rfl hl
    · simp [mainExit, hskip, hsucc]
  · cases lock
    · cases hskip : (should_throttle s).1
      · cases hsucc : (retryLoop probe restart).succeeded
        · simp [mainExit, hskip, hsucc]
        · simp [mainExit, hskip, hsucc]
      · simp [mainExit, hskip]
    · simp [mainExit]
    · cases hskip : (should_throttle s).1
      · cases hsucc : (retryLoop probe restart).succeeded
        · simp [mainExit, hskip, hsucc]
        · simp [mainExit, hskip, hsucc]
      · simp [mainExit, hskip]

/-- Witness for C6: with the lock acquired, a clean throttle state and an
always-failing probe, `main` exits 1; on contention it exits 0. -/
theorem C6_witness :
    mainExit .contention ⟨false, 0⟩ probeFail restartOk = 0 ∧
    ¬ (LockResult.acquired) = .contention ∧
    (should_throttle ⟨false, 0⟩).1 = false ∧
    (retryLoop probeFail restartOk).succeeded = false ∧
    mainExit .acquired ⟨false, 0⟩ probeFail restartOk = 1 := by
  have h := C6_exit_status .acquired ⟨false, 0⟩ probeFail restartOk
  have hsucc : (retryLoop probeFail restartOk).succeeded = false := rfl
  refine ⟨h.1, by simp, by decide, hsucc, ?_⟩
  exact h.2.2.2.2.mpr ⟨by simp, by decide, hsucc⟩

/-! ## C7 -/

/-- Counterexample to C7 as stated: a completed exchange whose status
line carries 500 is surfaced by `urllib` as an `HTTPError`, and
`http_get_status` returns the status code TOGETHER WITH an error
description (source lines 59-62) — not "no error detail". -/
theorem C7_counterexample :
    ¬ ∀ e : HttpExchange, statusLineReceived e = true →
      (http_get_status e).2 = none := by
  intro h
  have := h (.httpError 500 "Internal Server Error") rfl
  simp [http_get_status] at this

/-- C7 (amended): whenever the exchange completes and a status line is
received, `http_get_status` returns the numeric status code (a status
code is returned exactly then); responses `urllib` returns directly come
with no error detail, while 4xx/5xx responses raised as `HTTPError` come
with the status code and an `"HTTPError: ..."` description; only when
the exchange fails before a status line does it return no status code,
with a `"RequestError: ..."` description. -/
theorem C7_amended_prober_contract (e : HttpExchange) :
    ((¬ (http_get_status e).1 = none) ↔ statusLineReceived e = true) ∧
    (∀ s, e = .response s → http_get_status e = (some s, none)) ∧
    (∀ c m, e = .httpError c m →
      http_get_status e = (some c, some ("HTTPError: " ++ m))) ∧
    (∀ m, e = .netError m →
      http_get_status e = (none, some ("RequestError: " ++ m))) := by
  cases e <;> simp [http_get_status, statusLineReceived]

/-- Witness for C7 (amended): the three exchange outcomes at concrete
inputs. -/
theorem C7_witness :
    http_get_status (.response 200) = (some 200, none) ∧
    http_get_status (.httpError 500 "Internal Server Error") =
      (some 500, some ("HTTPError: " ++ "Internal Server Error")) ∧
    http_get_status (.netError "connection refused") =
      (none, some ("RequestError: " ++ "connection refused")) := by
  refine ⟨?_, ?_, ?_⟩
  · exact (C7_amended_prober_contract (.response 200)).2.1 200 rfl
  · exact (C7_amended_prober_contract
      (.httpError 500 "Internal Server Error")).2.2.1
      500 "Internal Server Error" rfl
  · exact (C7_amended_prober_contract
      (.netError "connection refused")).2.2.2 "connection refused" rfl

/-! ## C8 -/

/-- Counterexample to C8 as stated: `main` wraps none of its run logic in
a `try`/`except`, so an unexpected persistence fault is NOT converted
into a result — there is an input on which `mainE` returns an error
(the exception propagates out of `main`) instead of an exit status. -/
theorem C8_counterexample :
    ¬ ∀ (wf : WriteFaults) (lock : LockResult) (s : ThrottleState)
        (probe : Nat → ProbeResult) (restart : Nat → RestartResult),
      ∃ n, mainE wf lock s probe restart = Except.ok n := by
  intro h
  obtain ⟨n, hn⟩ := h ⟨true, false⟩ .acquired ⟨false, 0⟩ probeFail restartOk
  rw [show mainE ⟨true, false⟩ .acquired ⟨false, 0⟩ probeFail restartOk =
      Except.error "OSError: write failed" from rfl] at hn
  cases hn

/-- C8 (amended): an unexpected fault raised during a run — here a
status-file write failure — propagates uncaught out of `main` whenever
the run gets past the lock: `main` has no Run Driver catch boundary, so
the process crashes with the raised exception instead of producing a
failed `RunOutcome` and a regular exit status. -/
theorem C8_amended_faults_propagate (wf : WriteFaults) (lock : LockResult)
    (s : ThrottleState) (probe : Nat → ProbeResult)
    (restart : Nat → RestartResult)
    (hfault : wf.statusFileFault = true) (hl : ¬ lock = .contention) :
    mainE wf lock s probe restart = Except.error "OSError: write failed" := by
  cases lock
  · cases hskip : (should_throttle s).1
    · simp [mainE, hskip, write_json_atomicE, hfault, Except.bind]
    · cases hta : wf.throttleFileFault <;>
        simp [mainE, hskip, write_json_atomicE, hfault, hta, Except.bind]
  · exact absurd rfl hl
  · cases hskip : (should_throttle s).1
    · simp [mainE, hskip, write_json_atomicE, hfault, Except.bind]
    · cases hta : wf.throttleFileFault <;>
        simp [mainE, hskip, write_json_atomicE, hfault, hta, Except.bind]

/-- Witness for C8 (amended): with a status-file write fault injected
and the lock acquired, `main` surfaces the raised `OSError` instead of
an exit status. -/
theorem C8_witness :
    (⟨true, false⟩ : WriteFaults).statusFileFault = true ∧
    ¬ (LockResult.acquired) = .contention ∧
    mainE ⟨true, false⟩ .acquired ⟨false, 0⟩ probeFail restartOk =
      Except.error "OSError: write failed" :=
  ⟨rfl, by simp,
    C8_amended_faults_propagate ⟨true, false⟩ .acquired ⟨false, 0⟩
      probeFail restartOk rfl (by simp)⟩

/-! ## C9 -/

/-- The temporary sibling path is distinct from the target path. -/
theorem tmpName_ne (path : String) : ¬ tmpName path = path := by
  intro h
  have hlen := congrArg String.length h
  have h4 : (".tmp" : String).length = 4 := rfl
  rw [tmpName, String.length_append, h4] at hlen
  omega

/-- C9: `write_json_atomic` writes the serialized data to the sibling
temporary path, forces it durable, then atomically replaces the target:
at every observable state before the replace — after the temporary file
holds any (possibly torn) content `torn`, and after the fsync of the
fully written data — the target path's contents are exactly its old
contents, and after the replace they are exactly the new data.  So under
a crash between temp-write and replace the target is fully old, after the
replace fully new, and a concurrent reader of the target can never see a
truncated or partially written file. -/
theorem C9_write_json_atomic_old_or_new (path data torn : String)
    (fs : FS) :
    fsWriteTmp path torn fs path = fs path ∧
    fsFsync (fsWriteTmp path data fs) path = fs path ∧
    write_json_atomic path data fs path = some data ∧
    write_json_atomic path data fs (tmpName path) = none := by
  have hne : ¬ path = tmpName path := fun h => tmpName_ne path h.symm
  refine ⟨?_, ?_, ?_, ?_⟩
  · simp [fsWriteTmp, hne]
  · simp [fsFsync, fsWriteTmp, hne]
  · simp [write_json_atomic, fsReplace, fsFsync, fsWriteTmp]
  · simp [write_json_atomic, fsReplace, fsFsync, fsWriteTmp, tmpName_ne]

/-! ## C10 -/

/-- C10: `read_json` itself never raises — both the open failure and the
parse failure return the empty dict — but a successfully parsed value is
returned unchanged whatever its shape, so when the throttle file holds
well-formed JSON whose top level is not an object (an array, a number),
`should_throttle`'s `.get` call on the returned value raises; a
well-formed object is processed normally. -/
theorem C10_read_json_non_dict_passthrough :
    read_json .openError = JValue.obj [] ∧
    read_json .parseError = JValue.obj [] ∧
    (∀ v, read_json (.parsed v) = v) ∧
    should_throttle_dyn (.parsed (.arr [.num 1])) =
      Except.error "AttributeError: object has no attribute get" ∧
    should_throttle_dyn (.parsed (.num 7)) =
      Except.error "AttributeError: object has no attribute get" ∧
    should_throttle_dyn
        (.parsed (.obj [("last_failed", .bool true), ("counter", .num 3)])) =
      Except.ok
        (true, .obj [("last_failed", .bool true), ("counter", .num 4)]) :=
  ⟨rfl, rfl, fun _ => rfl, rfl, rfl, rfl⟩

end CameraWatchdog
